import Mathlib

/- Verification of the physics core of `src/utils/softBodySystem.ts`
   (class `SoftBodySystem`) of the interactive-design-app repository.

   Modelling conventions (shallow embedding):
   * JavaScript numbers are modelled by exact rationals `ℚ`.  `Math.sqrt`
     is modelled by `msqrt`, an integer-square-root based function that
     agrees with the exact square root on perfect squares; every concrete
     instance evaluated below is chosen with a perfect-square radicand,
     and the universally quantified theorems do not depend on the values
     of `msqrt`.  The one place where JavaScript float semantics
     (Infinity/NaN) are essential — the unguarded division by a
     zero current stick length during constraint relaxation — is modelled
     separately and faithfully by the `JNum` type and `stickVisitJS`.
   * `Math.sin`, `Math.cos` and `Math.random` are threaded as explicit
     oracle parameters (`jsin`, `jcos`, `rnd`).
   * Object references are rendered as indices: a `Stick` holds the
     indices of its two endpoints inside the owning object's point list
     (as the spec's design notes themselves recommend), a mouse spring
     holds (object index, point index), a held-object record holds the
     body id.  In-place mutation through a reference becomes `lmod`,
     an update of one list element.
   * JavaScript `Map`s are insertion-ordered association lists with
     `alookup` / `aset` / `adel`; iteration (`forEach`) is list order,
     which matches JS `Map` iteration order.
   * Fields that the modelled operations never read or write (vertex
     and face lists, colors, rendering radii, `angularVelocity`,
     the horn growth/config rendering data) are omitted; `id`s of rigid
     bodies are assumed pairwise distinct, as the spawners guarantee. -/

namespace SBS


/-- Fuelled binary search for the integer square root: largest `r` with
    `r * r ≤ n`.  64 bisection steps suffice for any `n < 2 ^ 64`; the fuel
    only makes the recursion structural so that concrete instances evaluate. -/
def nsqrtGo (n : ℕ) : ℕ → ℕ → ℕ → ℕ
  | lo, _, 0 => lo
  | lo, hi, fuel+1 =>
    if hi ≤ lo then lo
    else
      let mid := (lo + hi + 1) / 2
      if mid * mid ≤ n then nsqrtGo n mid hi fuel else nsqrtGo n lo (mid - 1) fuel

/-- Integer square root used by `msqrt`. -/
def nsqrt (n : ℕ) : ℕ := nsqrtGo n 0 n 64

/-- Model of `Math.sqrt` on the nonnegative rationals produced by the
    source (radicands are always sums of squares): exact whenever the
    reduced numerator and denominator are perfect squares, which covers
    every concrete input in this file. -/
def msqrt (q : ℚ) : ℚ := mkRat (nsqrt q.num.toNat) (nsqrt q.den)

/-- Update of the `i`-th element of a list; models in-place mutation of
    one element of a JS array (or mutation through a reference into it). -/
def lmod {α : Type} : List α → ℕ → (α → α) → List α
  | [], _, _ => []
  | a :: l, 0, f => f a :: l
  | a :: l, i+1, f => a :: lmod l i f

/-- `Map.get` of a JS `Map` modelled as an association list. -/
def alookup {α : Type} (m : List (ℕ × α)) (k : ℕ) : Option α :=
  (m.find? (fun e => e.1 == k)).map Prod.snd

/-- `Map.set`: replaces in place if the key exists, otherwise appends
    (JS `Map`s iterate in insertion order). -/
def aset {α : Type} (m : List (ℕ × α)) (k : ℕ) (v : α) : List (ℕ × α) :=
  if (m.find? (fun e => e.1 == k)).isSome then
    m.map (fun e => if e.1 == k then (k, v) else e)
  else m ++ [(k, v)]

/-- `Map.delete`. -/
def adel {α : Type} (m : List (ℕ × α)) (k : ℕ) : List (ℕ × α) :=
  m.filter (fun e => !(e.1 == k))

/-- 3D vector (`Vector3` of `../types`). -/
structure Vector3 where
  x : ℚ
  y : ℚ
  z : ℚ
deriving DecidableEq

/-- Quaternion (`Quaternion` of `../types`). -/
structure Quat where
  x : ℚ
  y : ℚ
  z : ℚ
  w : ℚ
deriving DecidableEq

/-- 2D soft-body point (`Point` of `../types`); rendering-only fields
    (`radius`, `color`) are omitted. -/
structure Point2 where
  x : ℚ
  y : ℚ
  oldX : ℚ
  oldY : ℚ
  isPinned : Bool
  u : ℚ
  v : ℚ
deriving DecidableEq

/-- Distance constraint (`Stick`); `p0`, `p1` are indices into the owning
    object's point list (the source holds references; both endpoints are
    owned by the same object).  `isHidden` is a rendering hint. -/
structure Stick where
  p0 : ℕ
  p1 : ℕ
  length : ℚ
  isHidden : Bool
deriving DecidableEq

/-- Soft-body object (`SoftBodyObject`); rendering fields omitted. -/
structure SBObject where
  id : String
  type : String
  points : List Point2
  sticks : List Stick
deriving DecidableEq

/-- Mutable animation fields of the dragon body's `dragonConfig`
    (the static `eyeColor` / `scale` entries are omitted). -/
structure DragonConfig where
  jawAngle : ℚ
  neckPhase : ℚ
  wingPhase : ℚ
deriving DecidableEq

/-- 3D rigid body (`RigidBody3D`); vertex/face/color rendering data and
    the never-used `angularVelocity` are omitted. -/
structure RigidBody where
  id : String
  type : String
  position : Vector3
  rotation : Quat
  scale : Vector3
  velocity : Vector3
  isHeld : Bool
  snapTarget : Option String
  snapTimer : ℤ
  glow : ℚ
  dragonConfig : Option DragonConfig
deriving DecidableEq

/-- A mouse-spring record (`mouseSprings` entry): the attached point is
    the `pi`-th point of the `oi`-th object. -/
structure Spring2 where
  oi : ℕ
  pi : ℕ
  anchorX : ℚ
  anchorY : ℚ
deriving DecidableEq

/-- A hold record (`heldObjects` entry). -/
structure Hold where
  bodyId : String
  offset : Vector3
  initialHandRot : ℚ
  initialObjRot : Quat
deriving DecidableEq

/-- The mutable state of one `SoftBodySystem` instance. -/
structure SysState where
  objects : List SBObject
  rigidBodies : List RigidBody
  mouseSprings : List (ℕ × Spring2)
  heldObjects : List (ℕ × Hold)
  time : ℚ
deriving DecidableEq

/-- Default point used with `List.getD` (never observable on the
    in-range indices the source produces). -/
def defPt : Point2 := { x := 0, y := 0, oldX := 0, oldY := 0, isPinned := false, u := 0, v := 0 }

/-- Default object for `List.getD`. -/
def defObj : SBObject := { id := "", type := "", points := [], sticks := [] }

/-- Default rigid body for `List.getD`. -/
def defBody : RigidBody :=
  { id := "", type := "", position := ⟨0, 0, 0⟩, rotation := ⟨0, 0, 0, 1⟩,
    scale := ⟨1, 1, 1⟩, velocity := ⟨0, 0, 0⟩, isHeld := false,
    snapTarget := none, snapTimer := 0, glow := 0, dragonConfig := none }

/-- Physics parameter `this.gravity`. -/
def gravity : ℚ := 0.5

/-- Physics parameter `this.drag` (2D Verlet damping). -/
def drag : ℚ := 0.95

/-- Physics parameter `this.groundFriction`. -/
def groundFriction : ℚ := 0.8

/-- Simulation parameter `this.solverIterations`. -/
def solverIterations : ℕ := 16

/-- Simulation parameter `this.stiffness`. -/
def stiffness : ℚ := 1.0

/-- Simulation parameter `this.breakingThreshold`. -/
def breakingThreshold : ℚ := 10.0

/-- `vAdd`. -/
def vAdd (a b : Vector3) : Vector3 := ⟨a.x + b.x, a.y + b.y, a.z + b.z⟩

/-- `vScale`. -/
def vScale (a : Vector3) (s : ℚ) : Vector3 := ⟨a.x * s, a.y * s, a.z * s⟩

/-- `qMult` (Hamilton product, component formulas as in the source). -/
def qMult (q1 q2 : Quat) : Quat :=
  { x := q1.w * q2.x + q1.x * q2.w + q1.y * q2.z - q1.z * q2.y
    y := q1.w * q2.y - q1.x * q2.z + q1.y * q2.w + q1.z * q2.x
    z := q1.w * q2.z + q1.x * q2.y - q1.y * q2.x + q1.z * q2.w
    w := q1.w * q2.w - q1.x * q2.x - q1.y * q2.y - q1.z * q2.z }

/-- `qFromAxisAngle`, with `Math.sin` / `Math.cos` as oracles. -/
def qFromAxisAngle (jsin jcos : ℚ → ℚ) (axis : Vector3) (angle : ℚ) : Quat :=
  { x := axis.x * jsin (angle / 2)
    y := axis.y * jsin (angle / 2)
    z := axis.z * jsin (angle / 2)
    w := jcos (angle / 2) }

/-- One point's Verlet integration and boundary clamps: the body of the
    per-point loop of `update` (lines 739-751); pinned points are skipped. -/
def integratePoint (w h : ℚ) (p : Point2) : Point2 :=
  if p.isPinned then p
  else
    let vx := (p.x - p.oldX) * drag
    let vy := (p.y - p.oldY) * drag
    let oX := p.x
    let oY := p.y
    let nx := p.x + vx
    let ny := p.y + vy + gravity
    let yc : ℚ × ℚ := if ny > h - 10 then (h - 10, (h - 10) + vy * groundFriction) else (ny, oY)
    let xc : ℚ × ℚ := if nx < 10 then (10, 10 + vx * groundFriction) else (nx, oX)
    let xc2 : ℚ × ℚ := if xc.1 > w - 10 then (w - 10, (w - 10) + vx * groundFriction) else xc
    let yc2 : ℚ × ℚ := if yc.1 < -300 then (-300, yc.2) else yc
    { p with x := xc2.1, oldX := xc2.2, y := yc2.1, oldY := yc2.2 }

/-- Current length of a stick over a point state (`Math.sqrt(dx*dx+dy*dy)`
    of lines 755-757). -/
def stickDist (pts : List Point2) (s : Stick) : ℚ :=
  let p0 := pts.getD s.p0 defPt
  let p1 := pts.getD s.p1 defPt
  msqrt ((p1.x - p0.x) * (p1.x - p0.x) + (p1.y - p0.y) * (p1.y - p0.y))

/-- The visit of one stick during a relaxation pass (lines 754-767):
    `none` means the stick broke (`splice` + `continue`), `some pts'` is
    the corrected point state.  Note: the source divides `diff / dist`
    without a zero guard; over `ℚ` Lean totalises division by zero as 0,
    which diverges from the JavaScript float semantics exactly when
    `dist = 0` — that case is modelled faithfully by `stickVisitJS` below. -/
def stickVisit (pts : List Point2) (s : Stick) : Option (List Point2) :=
  let p0 := pts.getD s.p0 defPt
  let p1 := pts.getD s.p1 defPt
  let dx := p1.x - p0.x
  let dy := p1.y - p0.y
  let dist := stickDist pts s
  if s.length * breakingThreshold < dist then none
  else
    let diff := s.length - dist
    let percent := diff / dist / 2 * stiffness
    let offX := dx * percent
    let offY := dy * percent
    let pts1 := if p0.isPinned then pts else
      lmod pts s.p0 (fun p => { p with x := p.x - offX, y := p.y - offY })
    let pts2 := if p1.isPinned then pts1 else
      lmod pts1 s.p1 (fun p => { p with x := p.x + offX, y := p.y + offY })
    some pts2

/-- One relaxation pass (the inner `for (let sIdx = sticks.length - 1;
    sIdx >= 0; sIdx--)` loop): sticks are visited from the last to the
    first, broken sticks are removed in place, surviving sticks keep
    their order.  In `s :: rest`, all of `rest` (higher indices) is
    processed before `s`. -/
def relaxPass (pts : List Point2) : List Stick → List Point2 × List Stick
  | [] => (pts, [])
  | s :: rest =>
    let pr := relaxPass pts rest
    match stickVisit pr.1 s with
    | none => pr
    | some pts2 => (pts2, s :: pr.2)

/-- `solverIterations` successive relaxation passes, each over the sticks
    surviving the previous one. -/
def iterRelax : ℕ → List Point2 → List Stick → List Point2 × List Stick
  | 0, pts, ss => (pts, ss)
  | n+1, pts, ss =>
    let pr := relaxPass pts ss
    iterRelax n pr.1 pr.2

/-- Per-object part of `update` (lines 737-770): devil-horn objects are
    skipped entirely; otherwise every point is integrated and clamped,
    then the constraints are relaxed. -/
def updateObj (w h : ℚ) (obj : SBObject) : SBObject :=
  if obj.type = "devil_horn" then obj
  else
    { obj with
      points := (iterRelax solverIterations (obj.points.map (integratePoint w h)) obj.sticks).1,
      sticks := (iterRelax solverIterations (obj.points.map (integratePoint w h)) obj.sticks).2 }

/-- The pull of one interaction spring (lines 771-777): the referenced
    point is moved 20% of the way to the anchor — with no `isPinned`
    check. -/
def applySpringPull (objs : List SBObject) (sp : Spring2) : List SBObject :=
  lmod objs sp.oi (fun o =>
    { o with points := lmod o.points sp.pi (fun p =>
        { p with x := p.x + (sp.anchorX - p.x) * 0.2,
                 y := p.y + (sp.anchorY - p.y) * 0.2 }) })

/-- Dragon animation fields written at the top of the rigid-body loop
    (lines 785-788), for every dragon body regardless of held/snap state. -/
def dragonAnim (jsin : ℚ → ℚ) (time : ℚ) (b : RigidBody) : RigidBody :=
  if b.type = "dragon" then
    match b.dragonConfig with
    | some cfg =>
      let cfg1 := { cfg with neckPhase := time, jawAngle := jsin (time * 2) * 0.2 + 0.2 }
      { b with dragonConfig := some cfg1 }
    | none => b
  else b

/-- Glow decay (line 790), applied to every body before the held check. -/
def glowDecay (b : RigidBody) : RigidBody :=
  if b.glow > 0 then { b with glow := b.glow - 0.05 } else b

/-- Free-fall physics of one body (lines 813-827): gravity into vertical
    velocity, velocity into position, floor collision with bounce and
    ground friction, then uniform drag 0.98. -/
def freeFall (h : ℚ) (b : RigidBody) : RigidBody :=
  let v1 : Vector3 := { b.velocity with y := b.velocity.y + gravity }
  let pos1 := vAdd b.position v1
  let pv : Vector3 × Vector3 :=
    if pos1.y > h - 30 then
      ({ pos1 with y := h - 30 },
       { x := v1.x * groundFriction, y := v1.y * (-0.4), z := v1.z * groundFriction })
    else (pos1, v1)
  { b with position := pv.1, velocity := vScale pv.2 0.98 }

/-- Per-body step of the rigid-body loop of `update` (lines 783-828).
    `lookup` is the full body list as it stands when this body is visited
    (earlier bodies already updated in place). -/
def updateBody (jsin : ℚ → ℚ) (lookup : List RigidBody) (time h : ℚ) (b : RigidBody) : RigidBody :=
  let b1 := glowDecay (dragonAnim jsin time b)
  if b1.isHeld then b1
  else if b1.snapTimer > 0 then { b1 with snapTimer := b1.snapTimer - 1 }
  else
    match b1.snapTarget with
    | some tid =>
      match lookup.find? (fun o => o.id == tid) with
      | some target =>
        { b1 with
          position := { x := target.position.x, y := target.position.y - 60, z := target.position.z },
          rotation := target.rotation }
      | none => freeFall h { b1 with snapTarget := none }
    | none => freeFall h b1

/-- Sequential in-place traversal of the rigid-body list: the body at
    index `i` is replaced by its update computed against the current
    (partially updated) list. -/
def updateBodiesGo (jsin : ℚ → ℚ) (time h : ℚ) : ℕ → ℕ → List RigidBody → List RigidBody
  | 0, _, bs => bs
  | fuel+1, i, bs =>
    updateBodiesGo jsin time h fuel (i + 1) (lmod bs i (fun b => updateBody jsin bs time h b))

/-- The rigid-body half of `update`. -/
def updateBodiesLoop (jsin : ℚ → ℚ) (time h : ℚ) (bs : List RigidBody) : List RigidBody :=
  updateBodiesGo jsin time h bs.length 0 bs

/-- `update(width, height)` (lines 733-829): time advance, per-object
    soft-body step, the interaction-spring pulls, then the rigid-body
    loop. -/
def updateSystem (jsin : ℚ → ℚ) (w h : ℚ) (st : SysState) : SysState :=
  let time1 := st.time + 0.05
  let objs1 := st.objects.map (updateObj w h)
  let objs2 := st.mouseSprings.foldl (fun os pr => applySpringPull os pr.2) objs1
  { st with time := time1,
            objects := objs2,
            rigidBodies := updateBodiesLoop jsin time1 h st.rigidBodies }

/-- `checkSnapping(active)` (lines 637-663): scan in list order, skip the
    active body by id, snap to the first candidate within the thresholds
    and stop (`break`).  Returns the updated active body and the updated
    list (only the matched candidate's glow is written there; the stale
    entry of the active body itself is skipped by id). -/
def checkSnapping (active : RigidBody) : List RigidBody → RigidBody × List RigidBody
  | [] => (active, [])
  | other :: rest =>
    if other.id = active.id then
      let pr := checkSnapping active rest
      (pr.1, other :: pr.2)
    else
      if |active.position.x - other.position.x| < 50 ∧ |active.position.z - other.position.z| < 50 then
        if 0 < other.position.y - active.position.y ∧ other.position.y - active.position.y < 60 + 40 then
          ({ active with
             snapTarget := some other.id,
             position := { x := other.position.x, y := other.position.y - 60, z := other.position.z },
             rotation := other.rotation,
             velocity := ⟨0, 0, 0⟩,
             glow := 1,
             snapTimer := 20 },
           { other with glow := 0.5 } :: rest)
        else
          let pr := checkSnapping active rest
          (pr.1, other :: pr.2)
      else
        let pr := checkSnapping active rest
        (pr.1, other :: pr.2)

/-- The glow reset at the top of `handleInteraction3D` (lines 545-547),
    applied to every body on every call. -/
def glowReset (b : RigidBody) : RigidBody :=
  if b.isHeld = false ∧ b.glow < 0.5 then { b with glow := 0 } else b

/-- Screen-space distance from the actor position to a body (lines
    557-559; only x and y enter). -/
def bodyDist (x y : ℚ) (b : RigidBody) : ℚ :=
  msqrt ((b.position.x - x) * (b.position.x - x) + (b.position.y - y) * (b.position.y - y))

/-- Scale-based volumetric collider radius (lines 562-563). -/
def colliderRadius (b : RigidBody) : ℚ :=
  max (max b.scale.x b.scale.y) b.scale.z * 60 * 0.7 * 1.3

/-- The grab target scan (lines 552-569): closest qualifying body wins;
    `closest = none` models the initial `Infinity`.  The scan does not
    exclude bodies that are already held. -/
def grabScanGo (x y : ℚ) : ℕ → Option ℚ → Option ℕ → List RigidBody → Option ℚ × Option ℕ
  | _, closest, tgt, [] => (closest, tgt)
  | i, closest, tgt, b :: rest =>
    let dist := bodyDist x y b
    let hit : Bool := decide (dist < colliderRadius b) &&
      (match closest with | none => true | some c => decide (dist < c))
    if hit then grabScanGo x y (i + 1) (some dist) (some i) rest
    else grabScanGo x y (i + 1) closest tgt rest

/-- `handleInteraction3D(handId, x, y, z, isGrabbing, rotationAngle)`
    (lines 543-635). -/
def handleInteraction3D (jsin jcos : ℚ → ℚ) (handId : ℕ) (x y z : ℚ)
    (isGrabbing : Bool) (rotationAngle : ℚ) (st : SysState) : SysState :=
  let bodies0 := st.rigidBodies.map glowReset
  if isGrabbing then
    match alookup st.heldObjects handId with
    | none =>
      match (grabScanGo x y 0 none none bodies0).2 with
      | some i =>
        let target := bodies0.getD i defBody
        { st with
          rigidBodies := lmod bodies0 i
            (fun t => { t with isHeld := true, snapTarget := none, glow := 1 }),
          heldObjects := aset st.heldObjects handId
            { bodyId := target.id,
              offset := ⟨target.position.x - x, target.position.y - y, target.position.z - z⟩,
              initialHandRot := rotationAngle,
              initialObjRot := target.rotation } }
      | none => { st with rigidBodies := bodies0 }
    | some hold =>
      match bodies0.findIdx? (fun b => b.id == hold.bodyId) with
      | some i =>
        { st with
          rigidBodies := lmod bodies0 i (fun b =>
            { b with
              glow := 1,
              position := ⟨b.position.x + (x + hold.offset.x - b.position.x) * 0.4,
                           b.position.y + (y + hold.offset.y - b.position.y) * 0.4,
                           b.position.z + (z + hold.offset.z - b.position.z) * 0.4⟩,
              velocity := ⟨0, 0, 0⟩,
              rotation := qMult b.rotation
                (qFromAxisAngle jsin jcos ⟨0, 1, 0⟩ ((rotationAngle - hold.initialHandRot) * 0.15)) }),
          heldObjects := aset st.heldObjects handId { hold with initialHandRot := rotationAngle } }
      | none => { st with rigidBodies := bodies0 }
  else
    let pr : List RigidBody × List (ℕ × Hold) :=
      match alookup st.heldObjects handId with
      | some hold =>
        match bodies0.findIdx? (fun b => b.id == hold.bodyId) with
        | some i =>
          let b1 := { bodies0.getD i defBody with isHeld := false }
          let snap := checkSnapping b1 bodies0
          (lmod snap.2 i (fun _ => snap.1), adel st.heldObjects handId)
        | none => (bodies0, adel st.heldObjects handId)
      | none => (bodies0, st.heldObjects)
    { st with
      rigidBodies := pr.1.map (fun b =>
        if bodyDist x y b < colliderRadius b then { b with glow := max b.glow 0.4 } else b),
      heldObjects := pr.2 }

/-- The inner point scan of `handleInteraction` (lines 673-681) over one
    object's points; `minD` starts at the capture radius 80 and shrinks
    with each new nearest candidate. -/
def pinchScanPts (x y : ℚ) (oi : ℕ) : ℕ → ℚ → Option (ℕ × ℕ) → List Point2 → ℚ × Option (ℕ × ℕ)
  | _, minD, cand, [] => (minD, cand)
  | pi, minD, cand, p :: rest =>
    let dist := msqrt ((p.x - x) * (p.x - x) + (p.y - y) * (p.y - y))
    if dist < minD then pinchScanPts x y oi (pi + 1) dist (some (oi, pi)) rest
    else pinchScanPts x y oi (pi + 1) minD cand rest

/-- The object scan of `handleInteraction` (lines 671-682): devil-horn
    objects are excluded; note pinned points are not. -/
def pinchScanObjs (x y : ℚ) : ℕ → ℚ → Option (ℕ × ℕ) → List SBObject → ℚ × Option (ℕ × ℕ)
  | _, minD, cand, [] => (minD, cand)
  | oi, minD, cand, o :: rest =>
    if o.type = "devil_horn" then pinchScanObjs x y (oi + 1) minD cand rest
    else
      let pr := pinchScanPts x y oi 0 minD cand o.points
      pinchScanObjs x y (oi + 1) pr.1 pr.2 rest

/-- `handleInteraction(handId, x, y, isPinching)` (lines 665-695). -/
def handleInteraction (handId : ℕ) (x y : ℚ) (isPinching : Bool) (st : SysState) : SysState :=
  if isPinching then
    let springs1 :=
      match alookup st.mouseSprings handId with
      | none =>
        match (pinchScanObjs x y 0 80 none st.objects).2 with
        | some c => aset st.mouseSprings handId { oi := c.1, pi := c.2, anchorX := x, anchorY := y }
        | none => st.mouseSprings
      | some _ => st.mouseSprings
    let springs2 :=
      match alookup springs1 handId with
      | some s => aset springs1 handId { s with anchorX := x, anchorY := y }
      | none => springs1
    { st with mouseSprings := springs2 }
  else
    { st with mouseSprings := adel st.mouseSprings handId }

/-- The body of the per-point `crumple` loop (lines 700-710); `r1`, `r2`
    are the two `Math.random()` draws consumed for this point.  The
    displacement does not consult `isPinned`. -/
def crumplePoint (cx cy radius intensity r1 r2 : ℚ) (p : Point2) : Point2 :=
  let dx := p.x - cx
  let dy := p.y - cy
  let distSq := dx * dx + dy * dy
  if distSq < radius * radius then
    let force := (1 - msqrt distSq / radius) * intensity
    let x1 := p.x + (r1 - 0.5) * 25 * force
    let y1 := p.y + (r2 - 0.5) * 25 * force
    { p with x := x1 - dx * 0.1 * force, y := y1 - dy * 0.1 * force }
  else p

/-- `crumple` over one point list, threading the global `Math.random`
    counter: two draws are consumed for each point inside the radius
    (the in-radius test here mirrors the one inside `crumplePoint` and
    only governs the draw bookkeeping). -/
def crumplePts (cx cy radius intensity : ℚ) (rnd : ℕ → ℚ) : ℕ → List Point2 → List Point2 × ℕ
  | k, [] => ([], k)
  | k, p :: rest =>
    let dx := p.x - cx
    let dy := p.y - cy
    if dx * dx + dy * dy < radius * radius then
      let p' := crumplePoint cx cy radius intensity (rnd k) (rnd (k + 1)) p
      let pr := crumplePts cx cy radius intensity rnd (k + 2) rest
      (p' :: pr.1, pr.2)
    else
      let pr := crumplePts cx cy radius intensity rnd k rest
      (p :: pr.1, pr.2)

/-- `crumple` over the object list (lines 697-713); devil-horn objects
    are excluded, and sticks are untouched. -/
def crumpleObjs (cx cy radius intensity : ℚ) (rnd : ℕ → ℚ) : ℕ → List SBObject → List SBObject × ℕ
  | k, [] => ([], k)
  | k, o :: rest =>
    if o.type = "devil_horn" then
      let pr := crumpleObjs cx cy radius intensity rnd k rest
      (o :: pr.1, pr.2)
    else
      let ppr := crumplePts cx cy radius intensity rnd k o.points
      let pr := crumpleObjs cx cy radius intensity rnd ppr.2 rest
      ({ o with points := ppr.1 } :: pr.1, pr.2)

/-- `crumple(x, y, radius, intensity)` at system level. -/
def crumpleSys (cx cy radius intensity : ℚ) (rnd : ℕ → ℚ) (st : SysState) : SysState :=
  { st with objects := (crumpleObjs cx cy radius intensity rnd 0 st.objects).1 }

/-- The body of the per-point `fold` loop (lines 718-728).  The
    displacement does not consult `isPinned`. -/
def foldPoint (cx cy radius vx vy : ℚ) (p : Point2) : Point2 :=
  let dx := p.x - cx
  let dy := p.y - cy
  let dist := msqrt (dx * dx + dy * dy)
  if dist < radius then
    let force := 1 - dist / radius
    let x1 := p.x - dx * 0.15 * force
    let y1 := p.y - dy * 0.15 * force
    { p with x := x1 + vx * 0.1 * force, y := y1 + vy * 0.1 * force }
  else p

/-- `fold(x, y, radius, velocity)` (lines 715-731); devil-horn objects
    are excluded, and sticks are untouched. -/
def foldSys (cx cy radius vx vy : ℚ) (st : SysState) : SysState :=
  { st with objects := st.objects.map (fun o =>
      if o.type = "devil_horn" then o
      else { o with points := o.points.map (foldPoint cx cy radius vx vy) }) }

/-- JavaScript float arithmetic, restricted to the values reachable in
    the relaxation step: finite values are exact rationals; `inf`, `ninf`
    and `nan` are IEEE-754 Infinity, -Infinity and NaN.  Signed zero and
    rounding are not modelled (ℚ has no -0; the relaxation path below
    only divides positive finite values by +0). -/
inductive JNum where
  | fin (q : ℚ)
  | inf
  | ninf
  | nan
deriving DecidableEq

/-- JS addition. -/
def jadd : JNum → JNum → JNum
  | .nan, _ => .nan
  | _, .nan => .nan
  | .fin a, .fin b => .fin (a + b)
  | .inf, .ninf => .nan
  | .ninf, .inf => .nan
  | .inf, _ => .inf
  | _, .inf => .inf
  | .ninf, _ => .ninf
  | _, .ninf => .ninf

/-- JS subtraction. -/
def jsub : JNum → JNum → JNum
  | .nan, _ => .nan
  | _, .nan => .nan
  | .fin a, .fin b => .fin (a - b)
  | .inf, .inf => .nan
  | .ninf, .ninf => .nan
  | .inf, _ => .inf
  | .ninf, _ => .ninf
  | _, .inf => .ninf
  | _, .ninf => .inf

/-- JS multiplication; `0 * Infinity = NaN`. -/
def jmul : JNum → JNum → JNum
  | .nan, _ => .nan
  | _, .nan => .nan
  | .fin a, .fin b => .fin (a * b)
  | .inf, .fin b => if 0 < b then .inf else if b < 0 then .ninf else .nan
  | .fin a, .inf => if 0 < a then .inf else if a < 0 then .ninf else .nan
  | .ninf, .fin b => if 0 < b then .ninf else if b < 0 then .inf else .nan
  | .fin a, .ninf => if 0 < a then .ninf else if a < 0 then .inf else .nan
  | .inf, .inf => .inf
  | .inf, .ninf => .ninf
  | .ninf, .inf => .ninf
  | .ninf, .ninf => .inf

/-- JS division; a positive finite value divided by 0 is `Infinity`. -/
def jdiv : JNum → JNum → JNum
  | .nan, _ => .nan
  | _, .nan => .nan
  | .fin a, .fin b =>
    if b = 0 then (if 0 < a then .inf else if a < 0 then .ninf else .nan)
    else .fin (a / b)
  | .fin _, .inf => .fin 0
  | .fin _, .ninf => .fin 0
  | .inf, .fin b => if b < 0 then .ninf else .inf
  | .ninf, .fin b => if b < 0 then .inf else .ninf
  | .inf, .inf => .nan
  | .inf, .ninf => .nan
  | .ninf, .inf => .nan
  | .ninf, .ninf => .nan

/-- JS `Math.sqrt`. -/
def jsqrt : JNum → JNum
  | .fin a => if a < 0 then .nan else .fin (msqrt a)
  | .inf => .inf
  | .ninf => .nan
  | .nan => .nan

/-- JS `>` (false whenever NaN is involved). -/
def jgt : JNum → JNum → Bool
  | .nan, _ => false
  | _, .nan => false
  | .fin a, .fin b => decide (b < a)
  | .inf, .inf => false
  | .inf, _ => true
  | _, .inf => false
  | .ninf, _ => false
  | _, .ninf => true

/-- A point as seen by the relaxation step, under JS float semantics
    (only the fields the step reads or writes). -/
structure JPoint where
  x : JNum
  y : JNum
  isPinned : Bool
deriving DecidableEq

/-- The visit of one stick (lines 754-767) under JS float semantics:
    `none` models removal of a broken stick, `some (p0', p1')` the
    corrected endpoints.  This is the faithful model of the division
    `diff / dist` with no zero guard. -/
def stickVisitJS (len : ℚ) (p0 p1 : JPoint) : Option (JPoint × JPoint) :=
  let dx := jsub p1.x p0.x
  let dy := jsub p1.y p0.y
  let dist := jsqrt (jadd (jmul dx dx) (jmul dy dy))
  if jgt dist (jmul (.fin len) (.fin breakingThreshold)) then none
  else
    let diff := jsub (.fin len) dist
    let percent := jmul (jdiv (jdiv diff dist) (.fin 2)) (.fin stiffness)
    let offX := jmul dx percent
    let offY := jmul dy percent
    let p0' := if p0.isPinned then p0 else { p0 with x := jsub p0.x offX, y := jsub p0.y offY }
    let p1' := if p1.isPinned then p1 else { p1 with x := jadd p1.x offX, y := jadd p1.y offY }
    some (p0', p1')

/-- The rigid body of the spec's one-tick free-fall scenario. -/
def c9body : RigidBody :=
  { id := "cube-9", type := "cube", position := ⟨0, 0, 0⟩, rotation := ⟨0, 0, 0, 1⟩,
    scale := ⟨1, 1, 1⟩, velocity := ⟨0, 0, 0⟩, isHeld := false,
    snapTarget := none, snapTimer := 0, glow := 0, dragonConfig := none }

/-- The single rigid body of the grab-contention scenario. -/
def c1body : RigidBody :=
  { id := "cube-1", type := "cube", position := ⟨0, 0, 0⟩, rotation := ⟨0, 0, 0, 1⟩,
    scale := ⟨1, 1, 1⟩, velocity := ⟨0, 0, 0⟩, isHeld := false,
    snapTarget := none, snapTimer := 0, glow := 0, dragonConfig := none }

/-- State after actor 1 grabs the body at the origin. -/
def c1st1 : SysState :=
  handleInteraction3D (fun _ => 0) (fun _ => 0) 1 0 0 0 true 0
    { objects := [], rigidBodies := [c1body], mouseSprings := [], heldObjects := [], time := 0 }

/-- State after actor 2 then also reports grabbing at the same position. -/
def c1st2 : SysState :=
  handleInteraction3D (fun _ => 0) (fun _ => 0) 2 0 0 0 true 0 c1st1

/-- The point of object `oi` at index `pi` (with defaults). -/
def pointAt (objs : List SBObject) (oi pi : ℕ) : Point2 :=
  (objs.getD oi defObj).points.getD pi defPt

/-- A plant-like object whose single point is pinned at the origin. -/
def c2obj : SBObject :=
  { id := "plant-1", type := "plant",
    points := [{ x := 0, y := 0, oldX := 0, oldY := 0, isPinned := true, u := 0, v := 0 }],
    sticks := [] }

/-- State after a pinch at (5, 0): the pinned point is the nearest point
    within the capture radius, so `handleInteraction` attaches a spring
    to it (the scan has no pinned-point filter). -/
def c2st1 : SysState :=
  handleInteraction 1 5 0 true
    { objects := [c2obj], rigidBodies := [], mouseSprings := [], heldObjects := [], time := 0 }

/-- State after one subsequent `update` call. -/
def c2st2 : SysState := updateSystem (fun _ => 0) 1000 1000 c2st1

/-- Witness object for the amended pinned invariant: point 0 is pinned,
    point 1 is free and has a spring attached. -/
def c2wobj : SBObject :=
  { id := "plant-2", type := "plant",
    points := [{ x := 3, y := 4, oldX := 3, oldY := 4, isPinned := true, u := 0, v := 0 },
               { x := 10, y := 10, oldX := 10, oldY := 10, isPinned := false, u := 0, v := 0 }],
    sticks := [] }

/-- Witness state: one spring, attached to the unpinned point 1. -/
def c2wst : SysState :=
  { objects := [c2wobj], rigidBodies := [],
    mouseSprings := [(1, { oi := 0, pi := 1, anchorX := 9, anchorY := 9 })],
    heldObjects := [], time := 0 }

/-- A car-type (non-exempt) object whose single point is pinned at
    (6, 8), at distance 10 from the origin. -/
def c10obj : SBObject :=
  { id := "car-1", type := "car",
    points := [{ x := 6, y := 8, oldX := 6, oldY := 8, isPinned := true, u := 0, v := 0 }],
    sticks := [] }

/-- System state holding just the car object above. -/
def c10st : SysState :=
  { objects := [c10obj], rigidBodies := [], mouseSprings := [], heldObjects := [], time := 0 }

/-- Two free points 600 apart joined by a stick of rest length 50: far
    beyond the breaking threshold 10 × 50 = 500. -/
def c4pts : List Point2 :=
  [{ x := 0, y := 0, oldX := 0, oldY := 0, isPinned := false, u := 0, v := 0 },
   { x := 600, y := 0, oldX := 600, oldY := 0, isPinned := false, u := 0, v := 0 }]

/-- The overstretched stick. -/
def c4s : Stick := { p0 := 0, p1 := 1, length := 50, isHidden := false }

/-- An empty system state used to instantiate the auxiliary conjuncts. -/
def c4sys : SysState :=
  { objects := [], rigidBodies := [], mouseSprings := [], heldObjects := [], time := 0 }

/-- Body `A` of the snap witness: directly below-aligned with `B`. -/
def c5A : RigidBody :=
  { id := "A", type := "cube", position := ⟨0, 100, 0⟩, rotation := ⟨0, 0, 0, 1⟩,
    scale := ⟨1, 1, 1⟩, velocity := ⟨3, 3, 3⟩, isHeld := false,
    snapTarget := none, snapTimer := 0, glow := 0, dragonConfig := none }

/-- Body `B` of the snap witness: 60 below `A` on screen. -/
def c5B : RigidBody :=
  { id := "B", type := "cube", position := ⟨0, 160, 0⟩, rotation := ⟨1, 0, 0, 0⟩,
    scale := ⟨1, 1, 1⟩, velocity := ⟨0, 0, 0⟩, isHeld := false,
    snapTarget := none, snapTimer := 0, glow := 0, dragonConfig := none }

/-- The follower body of the C6 witness. -/
def c6b : RigidBody :=
  { id := "F", type := "cube", position := ⟨1, 2, 3⟩, rotation := ⟨0, 0, 0, 1⟩,
    scale := ⟨1, 1, 1⟩, velocity := ⟨4, 5, 6⟩, isHeld := false,
    snapTarget := some "T", snapTimer := 0, glow := 0, dragonConfig := none }

/-- The snap target of the C6 witness. -/
def c6t : RigidBody :=
  { id := "T", type := "cube", position := ⟨7, 100, 9⟩, rotation := ⟨1, 0, 0, 0⟩,
    scale := ⟨1, 1, 1⟩, velocity := ⟨0, 0, 0⟩, isHeld := false,
    snapTarget := none, snapTimer := 0, glow := 0, dragonConfig := none }

/-- A dragon body under the stabilization lock (`snapTimer = 1`). -/
def c7dragon : RigidBody :=
  { id := "d", type := "dragon", position := ⟨0, 0, 0⟩, rotation := ⟨0, 0, 0, 1⟩,
    scale := ⟨1, 1, 1⟩, velocity := ⟨0, 0, 0⟩, isHeld := false,
    snapTarget := none, snapTimer := 1, glow := 0,
    dragonConfig := some { jawAngle := 0, neckPhase := 0, wingPhase := 0 } }

/-- A held body for the C7 witness. -/
def c7held : RigidBody :=
  { id := "H", type := "cube", position := ⟨1, 1, 1⟩, rotation := ⟨0, 0, 0, 1⟩,
    scale := ⟨1, 1, 1⟩, velocity := ⟨2, 2, 2⟩, isHeld := true,
    snapTarget := none, snapTimer := 0, glow := 1, dragonConfig := none }

/-- A body far from the actor with a small positive glow. -/
def c8body : RigidBody :=
  { id := "far", type := "cube", position := ⟨100, 0, 0⟩, rotation := ⟨0, 0, 0, 1⟩,
    scale := ⟨1, 1, 1⟩, velocity := ⟨0, 0, 0⟩, isHeld := false,
    snapTarget := none, snapTimer := 0, glow := 0.3, dragonConfig := none }

/-- State holding just the far body. -/
def c8st : SysState :=
  { objects := [], rigidBodies := [c8body], mouseSprings := [], heldObjects := [], time := 0 }

/-- Witness object for C8 with one far point. -/
def c8wobj : SBObject :=
  { id := "w", type := "car",
    points := [{ x := 200, y := 0, oldX := 200, oldY := 0, isPinned := false, u := 0, v := 0 }],
    sticks := [] }

/-- Witness body for C8 (far, already at glow 0). -/
def c8wbody : RigidBody :=
  { id := "farw", type := "cube", position := ⟨100, 0, 0⟩, rotation := ⟨0, 0, 0, 1⟩,
    scale := ⟨1, 1, 1⟩, velocity := ⟨0, 0, 0⟩, isHeld := false,
    snapTarget := none, snapTimer := 0, glow := 0, dragonConfig := none }

/-- Witness state for C8. -/
def c8wst : SysState :=
  { objects := [c8wobj], rigidBodies := [c8wbody], mouseSprings := [], heldObjects := [],
    time := 0 }

/-- Casting bridge used to evaluate `msqrt` on concrete naturals. -/
theorem msqrt_natCast (n : ℕ) : msqrt (n : ℚ) = nsqrt n := by
  simp [msqrt, show nsqrt 1 = 1 from by decide]

/-- Evaluation fact `msqrt 0 = 0`. -/
theorem msqrt0 : msqrt 0 = 0 := by
  have h := msqrt_natCast 0
  norm_num at h
  rw [h]
  norm_num [show nsqrt 0 = 0 from by decide]

/-- Evaluation fact `msqrt 25 = 5`. -/
theorem msqrt25 : msqrt 25 = 5 := by
  have h := msqrt_natCast 25
  norm_num at h
  rw [h]
  norm_num [show nsqrt 25 = 5 from by decide]

/-- Evaluation fact `msqrt 100 = 10`. -/
theorem msqrt100 : msqrt 100 = 10 := by
  have h := msqrt_natCast 100
  norm_num at h
  rw [h]
  norm_num [show nsqrt 100 = 10 from by decide]

/-- Evaluation fact `msqrt 10000 = 100`. -/
theorem msqrt10000 : msqrt 10000 = 100 := by
  have h := msqrt_natCast 10000
  norm_num at h
  rw [h]
  norm_num [show nsqrt 10000 = 100 from by decide]

/-- Evaluation fact `msqrt 40000 = 200`. -/
theorem msqrt40000 : msqrt 40000 = 200 := by
  have h := msqrt_natCast 40000
  norm_num at h
  rw [h]
  norm_num [show nsqrt 40000 = 200 from by decide]

/-- Evaluation fact `msqrt 360000 = 600`. -/
theorem msqrt360000 : msqrt 360000 = 600 := by
  have h := msqrt_natCast 360000
  norm_num at h
  rw [h]
  norm_num [show nsqrt 360000 = 600 from by decide]

/-- C9: one-tick free-fall arithmetic.  For a body at rest at the origin
    with `isHeld = false`, `snapTimer = 0`, `snapTarget = none` and the
    floor far below (height 1000), one `update` call yields
    `velocity.y = 0.5 × 0.98 = 0.49` and `position.y = 0.5` (gravity is
    added to the velocity before the velocity is added to the position,
    so the position moves only by the single gravity increment). -/
theorem c9_one_tick_free_fall :
    ((updateSystem (fun _ => 0) 1000 1000
        { objects := [], rigidBodies := [c9body], mouseSprings := [],
          heldObjects := [], time := 0 }).rigidBodies.getD 0 defBody).velocity.y = 0.49 ∧
    ((updateSystem (fun _ => 0) 1000 1000
        { objects := [], rigidBodies := [c9body], mouseSprings := [],
          heldObjects := [], time := 0 }).rigidBodies.getD 0 defBody).position.y = 0.5 := by
  norm_num [updateSystem, updateBodiesLoop, updateBodiesGo, updateBody, dragonAnim,
    glowDecay, freeFall, vAdd, vScale, lmod, c9body, defBody, gravity]

/-- C3: under JavaScript float semantics, a surviving stick whose two
    (unpinned) endpoints coincide at (100, 100) is not skipped: the
    unguarded division `diff / dist` with `dist = 0` yields Infinity,
    the offsets `0 × Infinity` yield NaN, and both endpoints' coordinates
    are overwritten with NaN — the positions do change, contradicting the
    claimed zero-length guard. -/
theorem c3_zero_length_division :
    stickVisitJS 50 ⟨.fin 100, .fin 100, false⟩ ⟨.fin 100, .fin 100, false⟩ =
      some (⟨.nan, .nan, false⟩, ⟨.nan, .nan, false⟩) := by
  norm_num [stickVisitJS, jsub, jadd, jmul, jdiv, jsqrt, jgt, msqrt0,
    breakingThreshold, stiffness]

/-- C1: the grab scan does not exclude bodies that are already held, so
    after actor 1 has grabbed the body (`isHeld = true`), actor 2's grab
    attempt on the very same body also succeeds: both actors end up with
    a hold record for the same body id, violating hold exclusivity. -/
theorem c1_double_hold :
    ((c1st1.rigidBodies.getD 0 defBody).isHeld = true) ∧
    (alookup c1st2.heldObjects 1).map Hold.bodyId = some "cube-1" ∧
    (alookup c1st2.heldObjects 2).map Hold.bodyId = some "cube-1" := by
  norm_num [c1st2, c1st1, handleInteraction3D, glowReset, grabScanGo, bodyDist,
    colliderRadius, alookup, aset, lmod, c1body, defBody, msqrt0, List.find?]

/-- Length is preserved by an in-place element update. -/
theorem lmod_length {α : Type} (l : List α) (i : ℕ) (f : α → α) :
    (lmod l i f).length = l.length := by
  induction l generalizing i with
  | nil => rfl
  | cons a l ih => cases i <;> simp [lmod, ih]

/-- Reading after an in-place element update. -/
theorem getD_lmod {α : Type} (l : List α) (i j : ℕ) (f : α → α) (d : α) :
    (lmod l i f).getD j d = if j = i ∧ j < l.length then f (l.getD j d) else l.getD j d := by
  induction l generalizing i j with
  | nil => simp [lmod]
  | cons a l ih =>
    cases i with
    | zero => cases j <;> simp [lmod]
    | succ ii =>
      cases j with
      | zero => simp [lmod]
      | succ jj =>
        simp only [lmod, List.getD_cons_succ, List.length_cons]
        rw [ih]
        split_ifs with h1 h2 h2
        · rfl
        · omega
        · omega
        · rfl

/-- Reading a mapped list with a default. -/
theorem getD_map {α β : Type} (f : α → β) (l : List α) (j : ℕ) (d : β) (d' : α) :
    (l.map f).getD j d = if j < l.length then f (l.getD j d') else d := by
  induction l generalizing j with
  | nil => simp
  | cons a l ih =>
    cases j with
    | zero => simp
    | succ jj =>
      simp only [List.map_cons, List.getD_cons_succ, List.length_cons]
      rw [ih]
      split_ifs with h1 h2 h2
      · rfl
      · omega
      · omega
      · rfl

/-- A write to index `i` guarded by the pinned flag of index `i` of a
    flag-equivalent base list preserves lengths, pinned flags, and the
    values stored at pinned indices. -/
theorem gwrite_preserve (base pts : List Point2) (i : ℕ) (f : Point2 → Point2)
    (hf : ∀ p, (f p).isPinned = p.isPinned)
    (hflag : ∀ j, (pts.getD j defPt).isPinned = (base.getD j defPt).isPinned) :
    (if (base.getD i defPt).isPinned then pts else lmod pts i f).length = pts.length ∧
    (∀ j, ((if (base.getD i defPt).isPinned then pts else lmod pts i f).getD j defPt).isPinned
        = (pts.getD j defPt).isPinned) ∧
    (∀ j, (pts.getD j defPt).isPinned = true →
        (if (base.getD i defPt).isPinned then pts else lmod pts i f).getD j defPt
          = pts.getD j defPt) := by
  by_cases hb : (base.getD i defPt).isPinned = true
  · rw [if_pos hb]
    exact ⟨rfl, fun j => rfl, fun j _ => rfl⟩
  · rw [if_neg hb]
    refine ⟨lmod_length _ _ _, ?_, ?_⟩
    · intro j
      rw [getD_lmod]
      split_ifs with hc
      · rw [hf]
      · rfl
    · intro j hj
      rw [getD_lmod]
      split_ifs with hc
      · exfalso
        rcases hc with ⟨hji, _⟩
        rw [hji] at hj
        rw [hflag i] at hj
        exact hb hj
      · rfl

/-- One stick visit either removes the stick or is a pair of
    pinned-guarded coordinate writes. -/
theorem stickVisit_cases (pts : List Point2) (s : Stick) :
    stickVisit pts s = none ∨
    ∃ f0 f1 : Point2 → Point2,
      (∀ p, (f0 p).isPinned = p.isPinned) ∧ (∀ p, (f1 p).isPinned = p.isPinned) ∧
      stickVisit pts s = some
        (if (pts.getD s.p1 defPt).isPinned then
           (if (pts.getD s.p0 defPt).isPinned then pts else lmod pts s.p0 f0)
         else lmod (if (pts.getD s.p0 defPt).isPinned then pts else lmod pts s.p0 f0) s.p1 f1) := by
  by_cases hbrk : s.length * breakingThreshold < stickDist pts s
  · left
    simp [stickVisit, hbrk]
  · right
    refine ⟨fun p => { p with
        x := p.x - ((pts.getD s.p1 defPt).x - (pts.getD s.p0 defPt).x)
          * ((s.length - stickDist pts s) / stickDist pts s / 2 * stiffness),
        y := p.y - ((pts.getD s.p1 defPt).y - (pts.getD s.p0 defPt).y)
          * ((s.length - stickDist pts s) / stickDist pts s / 2 * stiffness) },
      fun p => { p with
        x := p.x + ((pts.getD s.p1 defPt).x - (pts.getD s.p0 defPt).x)
          * ((s.length - stickDist pts s) / stickDist pts s / 2 * stiffness),
        y := p.y + ((pts.getD s.p1 defPt).y - (pts.getD s.p0 defPt).y)
          * ((s.length - stickDist pts s) / stickDist pts s / 2 * stiffness) },
      fun p => rfl, fun p => rfl, ?_⟩
    show stickVisit pts s = _
    unfold stickVisit
    rw [if_neg hbrk]

/-- A surviving stick visit preserves lengths, pinned flags, and the
    positions of pinned points. -/
theorem stickVisit_preserve (pts : List Point2) (s : Stick) (pts2 : List Point2)
    (hv : stickVisit pts s = some pts2) :
    pts2.length = pts.length ∧
    (∀ j, (pts2.getD j defPt).isPinned = (pts.getD j defPt).isPinned) ∧
    (∀ j, (pts.getD j defPt).isPinned = true → pts2.getD j defPt = pts.getD j defPt) := by
  rcases stickVisit_cases pts s with hnone | ⟨f0, f1, hf0, hf1, hsome⟩
  · rw [hnone] at hv
    exact absurd hv (by simp)
  · rw [hsome] at hv
    have h1 := gwrite_preserve pts pts s.p0 f0 hf0 (fun j => rfl)
    have h2 := gwrite_preserve pts
      (if (pts.getD s.p0 defPt).isPinned then pts else lmod pts s.p0 f0) s.p1 f1 hf1 h1.2.1
    have hv2 : pts2 =
        (if (pts.getD s.p1 defPt).isPinned then
           (if (pts.getD s.p0 defPt).isPinned then pts else lmod pts s.p0 f0)
         else lmod (if (pts.getD s.p0 defPt).isPinned then pts else lmod pts s.p0 f0) s.p1 f1) := by
      exact (Option.some_inj.mp hv).symm
    subst hv2
    refine ⟨by rw [h2.1, h1.1], ?_, ?_⟩
    · intro j
      rw [h2.2.1 j, h1.2.1 j]
    · intro j hj
      have hj1 : ((if (pts.getD s.p0 defPt).isPinned then pts else lmod pts s.p0 f0).getD j
          defPt).isPinned = true := by rw [h1.2.1 j]; exact hj
      rw [h2.2.2 j hj1, h1.2.2 j hj]

/-- One relaxation pass preserves lengths, pinned flags, and the
    positions of pinned points, and only removes sticks. -/
theorem relaxPass_preserve (ss : List Stick) (pts : List Point2) :
    (relaxPass pts ss).1.length = pts.length ∧
    (∀ j, ((relaxPass pts ss).1.getD j defPt).isPinned = (pts.getD j defPt).isPinned) ∧
    (∀ j, (pts.getD j defPt).isPinned = true →
        (relaxPass pts ss).1.getD j defPt = pts.getD j defPt) ∧
    ((relaxPass pts ss).2.Sublist ss) := by
  induction ss with
  | nil => exact ⟨rfl, fun j => rfl, fun j _ => rfl, List.Sublist.refl _⟩
  | cons s rest ih =>
    rcases ih with ⟨ihl, ihf, ihp, ihs⟩
    have hcons : relaxPass pts (s :: rest)
        = (match stickVisit (relaxPass pts rest).1 s with
           | none => relaxPass pts rest
           | some pts2 => (pts2, s :: (relaxPass pts rest).2)) := rfl
    rw [hcons]
    cases hv : stickVisit (relaxPass pts rest).1 s with
    | none =>
      exact ⟨ihl, ihf, ihp, ihs.trans (List.sublist_cons_self s rest)⟩
    | some pts2 =>
      have hp := stickVisit_preserve _ s pts2 hv
      refine ⟨?_, ?_, ?_, List.Sublist.cons₂ s ihs⟩
      · show pts2.length = pts.length
        rw [hp.1, ihl]
      · intro j
        show (pts2.getD j defPt).isPinned = _
        rw [hp.2.1 j, ihf j]
      · intro j hj
        show pts2.getD j defPt = _
        have hj1 : ((relaxPass pts rest).1.getD j defPt).isPinned = true := by
          rw [ihf j]; exact hj
        rw [hp.2.2 j hj1, ihp j hj]

/-- Iterated relaxation preserves lengths, pinned flags, and the
    positions of pinned points, and only removes sticks. -/
theorem iterRelax_preserve (n : ℕ) (pts : List Point2) (ss : List Stick) :
    (iterRelax n pts ss).1.length = pts.length ∧
    (∀ j, ((iterRelax n pts ss).1.getD j defPt).isPinned = (pts.getD j defPt).isPinned) ∧
    (∀ j, (pts.getD j defPt).isPinned = true →
        (iterRelax n pts ss).1.getD j defPt = pts.getD j defPt) ∧
    ((iterRelax n pts ss).2.Sublist ss) := by
  induction n generalizing pts ss with
  | zero => exact ⟨rfl, fun j => rfl, fun j _ => rfl, List.Sublist.refl _⟩
  | succ n ih =>
    have hr := relaxPass_preserve ss pts
    have hi := ih (relaxPass pts ss).1 (relaxPass pts ss).2
    have hcons : iterRelax (n + 1) pts ss
        = iterRelax n (relaxPass pts ss).1 (relaxPass pts ss).2 := rfl
    rw [hcons]
    refine ⟨by rw [hi.1, hr.1], ?_, ?_, hi.2.2.2.trans hr.2.2.2⟩
    · intro j
      rw [hi.2.1 j, hr.2.1 j]
    · intro j hj
      have hj1 : ((relaxPass pts ss).1.getD j defPt).isPinned = true := by
        rw [hr.2.1 j]; exact hj
      rw [hi.2.2.1 j hj1, hr.2.2.1 j hj]

/-- Integration never changes the pinned flag. -/
theorem integratePoint_isPinned (w h : ℚ) (p : Point2) :
    (integratePoint w h p).isPinned = p.isPinned := by
  unfold integratePoint
  split_ifs <;> rfl

/-- Integration skips pinned points entirely. -/
theorem integratePoint_pinned (w h : ℚ) (p : Point2) (hp : p.isPinned = true) :
    integratePoint w h p = p := by
  simp [integratePoint, hp]

/-- The per-object update preserves point-list length, pinned flags, the
    positions of pinned points, and only removes sticks. -/
theorem updateObj_preserve (w h : ℚ) (o : SBObject) :
    (updateObj w h o).points.length = o.points.length ∧
    (∀ j, ((updateObj w h o).points.getD j defPt).isPinned
        = (o.points.getD j defPt).isPinned) ∧
    (∀ j, (o.points.getD j defPt).isPinned = true →
        (updateObj w h o).points.getD j defPt = o.points.getD j defPt) ∧
    ((updateObj w h o).sticks.Sublist o.sticks) := by
  by_cases hd : o.type = "devil_horn"
  · unfold updateObj
    rw [if_pos hd]
    exact ⟨rfl, fun j => rfl, fun j _ => rfl, List.Sublist.refl _⟩
  · simp only [updateObj]
    rw [if_neg hd]
    dsimp only
    have hmapf : ∀ j, ((o.points.map (integratePoint w h)).getD j defPt).isPinned
        = (o.points.getD j defPt).isPinned := by
      intro j
      rw [getD_map (integratePoint w h) o.points j defPt defPt]
      split_ifs with hj
      · rw [integratePoint_isPinned]
      · rw [List.getD_eq_default _ _ (by omega)]
    have hmapp : ∀ j, (o.points.getD j defPt).isPinned = true →
        (o.points.map (integratePoint w h)).getD j defPt = o.points.getD j defPt := by
      intro j hj
      rw [getD_map (integratePoint w h) o.points j defPt defPt]
      split_ifs with hjl
      · rw [integratePoint_pinned w h _ hj]
      · rw [List.getD_eq_default _ _ (by omega)]
    have hi := iterRelax_preserve solverIterations (o.points.map (integratePoint w h)) o.sticks
    refine ⟨?_, ?_, ?_, hi.2.2.2⟩
    · rw [hi.1]
      exact List.length_map _ _
    · intro j
      rw [hi.2.1 j, hmapf j]
    · intro j hj
      have hj1 : ((o.points.map (integratePoint w h)).getD j defPt).isPinned = true := by
        rw [hmapf j]; exact hj
      rw [hi.2.2.1 j hj1, hmapp j hj]

/-- One spring pull preserves structure and leaves every point other
    than the referenced one unchanged. -/
theorem applySpringPull_preserve (objs : List SBObject) (sp : Spring2) (oi pi : ℕ) :
    (applySpringPull objs sp).length = objs.length ∧
    ((applySpringPull objs sp).getD oi defObj).points.length
      = (objs.getD oi defObj).points.length ∧
    (pointAt (applySpringPull objs sp) oi pi).isPinned = (pointAt objs oi pi).isPinned ∧
    (¬(sp.oi = oi ∧ sp.pi = pi) →
      pointAt (applySpringPull objs sp) oi pi = pointAt objs oi pi) := by
  unfold applySpringPull pointAt
  rw [getD_lmod]
  split_ifs with hc
  · rcases hc with ⟨hoi, hlt⟩
    subst hoi
    refine ⟨lmod_length _ _ _, by simp [lmod_length], ?_, ?_⟩
    · show ((lmod (objs.getD sp.oi defObj).points sp.pi _).getD pi defPt).isPinned = _
      rw [getD_lmod]
      split_ifs with hc2
      · rfl
      · rfl
    · intro hno
      show (lmod (objs.getD sp.oi defObj).points sp.pi _).getD pi defPt = _
      rw [getD_lmod]
      split_ifs with hc2
      · exact absurd ⟨rfl, hc2.1.symm⟩ hno
      · rfl
  · exact ⟨lmod_length _ _ _, rfl, rfl, fun _ => rfl⟩

/-- Folding all spring pulls preserves structure and leaves every
    unreferenced point unchanged. -/
theorem springFold_preserve (sps : List (ℕ × Spring2)) (objs : List SBObject) (oi pi : ℕ) :
    ((sps.foldl (fun os pr => applySpringPull os pr.2) objs).length = objs.length) ∧
    (((sps.foldl (fun os pr => applySpringPull os pr.2) objs).getD oi defObj).points.length
      = (objs.getD oi defObj).points.length) ∧
    ((pointAt (sps.foldl (fun os pr => applySpringPull os pr.2) objs) oi pi).isPinned
      = (pointAt objs oi pi).isPinned) ∧
    ((∀ pr ∈ sps, ¬(pr.2.oi = oi ∧ pr.2.pi = pi)) →
      pointAt (sps.foldl (fun os pr => applySpringPull os pr.2) objs) oi pi
        = pointAt objs oi pi) := by
  induction sps generalizing objs with
  | nil => exact ⟨rfl, rfl, rfl, fun _ => rfl⟩
  | cons pr rest ih =>
    simp only [List.foldl_cons]
    have h1 := applySpringPull_preserve objs pr.2 oi pi
    have h2 := ih (applySpringPull objs pr.2)
    refine ⟨by rw [h2.1, h1.1], by rw [h2.2.1, h1.2.1], by rw [h2.2.2.1, h1.2.2.1], ?_⟩
    intro hno
    have hrest : ∀ q ∈ rest, ¬(q.2.oi = oi ∧ q.2.pi = pi) := by
      intro q hq
      exact hno q (List.mem_cons_of_mem pr hq)
    rw [h2.2.2.2 hrest, h1.2.2.2 (hno pr (List.mem_cons_self pr rest))]

/-- One `update` call leaves the spring map untouched, preserves pinned
    flags, and leaves the position of a pinned point untouched provided
    no spring is attached to it. -/
theorem updateSystem_preserve (jsin : ℚ → ℚ) (w h : ℚ) (st : SysState) (oi pi : ℕ) :
    (updateSystem jsin w h st).mouseSprings = st.mouseSprings ∧
    ((pointAt (updateSystem jsin w h st).objects oi pi).isPinned
      = (pointAt st.objects oi pi).isPinned) ∧
    ((pointAt st.objects oi pi).isPinned = true →
      (∀ pr ∈ st.mouseSprings, ¬(pr.2.oi = oi ∧ pr.2.pi = pi)) →
      pointAt (updateSystem jsin w h st).objects oi pi = pointAt st.objects oi pi) := by
  have hmapF : (pointAt (st.objects.map (updateObj w h)) oi pi).isPinned
      = (pointAt st.objects oi pi).isPinned := by
    unfold pointAt
    rw [getD_map (updateObj w h) st.objects oi defObj defObj]
    split_ifs with hoi
    · exact (updateObj_preserve w h _).2.1 pi
    · rw [List.getD_eq_default st.objects defObj (by omega)]
  have hmapP : (pointAt st.objects oi pi).isPinned = true →
      pointAt (st.objects.map (updateObj w h)) oi pi = pointAt st.objects oi pi := by
    intro hj
    unfold pointAt
    rw [getD_map (updateObj w h) st.objects oi defObj defObj]
    split_ifs with hoi
    · exact (updateObj_preserve w h _).2.2.1 pi hj
    · rw [List.getD_eq_default st.objects defObj (by omega)]
  have hs := springFold_preserve st.mouseSprings (st.objects.map (updateObj w h)) oi pi
  refine ⟨rfl, ?_, ?_⟩
  · show (pointAt (st.mouseSprings.foldl (fun os pr => applySpringPull os pr.2)
      (st.objects.map (updateObj w h))) oi pi).isPinned = _
    rw [hs.2.2.1, hmapF]
  · intro hj hns
    show pointAt (st.mouseSprings.foldl (fun os pr => applySpringPull os pr.2)
      (st.objects.map (updateObj w h))) oi pi = _
    rw [hs.2.2.2 hns, hmapP hj]

/-- C2 (amended): a pinned point to which no interaction spring is
    attached keeps its exact position across any number of `update`
    calls — integration skips it, boundary clamps are unreachable for
    it, and constraint relaxation never writes a pinned endpoint.  (The
    spring-attachment proviso is forced by `c2_spring_moves_pinned`
    below: the spring pull does not consult the pinned flag.) -/
theorem c2_pinned_invariant_no_spring (jsin : ℚ → ℚ) (w h : ℚ) (st : SysState)
    (oi pi n : ℕ)
    (hpin : (pointAt st.objects oi pi).isPinned = true)
    (hns : ∀ pr ∈ st.mouseSprings, ¬(pr.2.oi = oi ∧ pr.2.pi = pi)) :
    pointAt ((updateSystem jsin w h)^[n] st).objects oi pi = pointAt st.objects oi pi := by
  induction n generalizing st with
  | zero => rfl
  | succ n ih =>
    rw [Function.iterate_succ_apply]
    have hp := updateSystem_preserve jsin w h st oi pi
    have hpin' : (pointAt (updateSystem jsin w h st).objects oi pi).isPinned = true := by
      rw [hp.2.1]; exact hpin
    have hns' : ∀ pr ∈ (updateSystem jsin w h st).mouseSprings,
        ¬(pr.2.oi = oi ∧ pr.2.pi = pi) := by
      rw [hp.1]; exact hns
    rw [ih (updateSystem jsin w h st) hpin' hns', hp.2.2 hpin hns]

/-- C2 counterexample: `handleInteraction` attaches a mouse spring to a
    pinned point, and the spring pull inside `update` (which does not
    consult `isPinned`) then moves the pinned point from x = 0 to
    x = 0 + (5 − 0) × 0.2 = 1: a pinned point's position is not
    invariant under `update` once a spring is attached to it. -/
theorem c2_spring_moves_pinned :
    (pointAt [c2obj] 0 0).isPinned = true ∧
    (pointAt [c2obj] 0 0).x = 0 ∧
    (alookup c2st1.mouseSprings 1).map (fun s => (s.oi, s.pi)) = some (0, 0) ∧
    (pointAt c2st2.objects 0 0).x = 1 := by
  refine ⟨rfl, rfl, ?_, ?_⟩
  · norm_num [c2st1, handleInteraction, pinchScanObjs, pinchScanPts, alookup, aset,
      c2obj, pointAt, defObj, defPt, msqrt25, List.find?, Option.map, Option.isSome,
      beq_iff_eq, show ("plant" : String) ≠ "devil_horn" from by decide]
  · norm_num [c2st2, c2st1, handleInteraction, pinchScanObjs, pinchScanPts, alookup, aset,
      c2obj, pointAt, defObj, defPt, msqrt25, updateSystem, updateObj, integratePoint,
      iterRelax, relaxPass, applySpringPull, lmod, updateBodiesLoop, updateBodiesGo,
      List.find?, Option.map, Option.isSome, beq_iff_eq,
      show ("plant" : String) ≠ "devil_horn" from by decide]

/-- Witness for the amended C2 theorem at a concrete state and n = 2. -/
theorem c2_pinned_invariant_no_spring_witness :
    (pointAt c2wst.objects 0 0).isPinned = true ∧
    (∀ pr ∈ c2wst.mouseSprings, ¬(pr.2.oi = 0 ∧ pr.2.pi = 0)) ∧
    pointAt ((updateSystem (fun _ => 0) 640 480)^[2] c2wst).objects 0 0
      = pointAt c2wst.objects 0 0 :=
  ⟨rfl, by simp [c2wst], c2_pinned_invariant_no_spring (fun _ => 0) 640 480 c2wst 0 0 2
    rfl (by simp [c2wst])⟩

/-- C10: the direct point manipulators ignore the pinned flag.  The
    per-point displacement of `fold` and of `crumple` is the same
    function of the point's coordinates whatever the value of
    `isPinned`, and concretely a pinned point of a non-exempt car object
    at distance 10 from the effect centre (radius 20) is moved by both
    system-level operations: `fold` moves its x from 6 to
    6 − 6 × 0.15 × 0.5 = 5.55, and `crumple` (with the random oracle
    constantly 0.5, making the jitter zero) moves it to
    6 − 6 × 0.1 × 0.5 = 5.7. -/
theorem c10_manipulators_ignore_pinned
    (cx cy radius intensity vx vy r1 r2 : ℚ) (p : Point2) (b : Bool) :
    (foldPoint cx cy radius vx vy { p with isPinned := b }
      = { foldPoint cx cy radius vx vy p with isPinned := b }) ∧
    (crumplePoint cx cy radius intensity r1 r2 { p with isPinned := b }
      = { crumplePoint cx cy radius intensity r1 r2 p with isPinned := b }) ∧
    (pointAt c10st.objects 0 0).isPinned = true ∧
    (pointAt c10st.objects 0 0).x = 6 ∧
    (pointAt (foldSys 0 0 20 0 0 c10st).objects 0 0).x = 111 / 20 ∧
    (pointAt (crumpleSys 0 0 20 1 (fun _ => 0.5) c10st).objects 0 0).x = 57 / 10 := by
  refine ⟨?_, ?_, rfl, rfl, ?_, ?_⟩
  · unfold foldPoint
    dsimp only
    split_ifs with h
    · rfl
    · rfl
  · unfold crumplePoint
    dsimp only
    split_ifs with h
    · rfl
    · rfl
  · norm_num [foldSys, foldPoint, pointAt, c10st, c10obj, defObj, defPt, msqrt100,
      show ("car" : String) ≠ "devil_horn" from by decide]
  · norm_num [crumpleSys, crumpleObjs, crumplePts, crumplePoint, pointAt, c10st, c10obj,
      defObj, defPt, msqrt100, show ("car" : String) ≠ "devil_horn" from by decide]

/-- Decomposition of one relaxation pass along an append: the right part
    (higher indices) is processed first, then the left part on the
    resulting points; surviving sticks concatenate in order. -/
theorem relaxPass_append (pts : List Point2) (l1 l2 : List Stick) :
    relaxPass pts (l1 ++ l2)
      = ((relaxPass (relaxPass pts l2).1 l1).1,
         (relaxPass (relaxPass pts l2).1 l1).2 ++ (relaxPass pts l2).2) := by
  induction l1 with
  | nil => simp [relaxPass]
  | cons s l1 ih =>
    have hcons : ∀ (q : List Point2) (ss : List Stick), relaxPass q (s :: ss)
        = (match stickVisit (relaxPass q ss).1 s with
           | none => relaxPass q ss
           | some pts2 => (pts2, s :: (relaxPass q ss).2)) := fun q ss => rfl
    rw [List.cons_append, hcons, hcons, ih]
    dsimp only
    cases hv : stickVisit (relaxPass (relaxPass pts l2).1 l1).1 s with
    | none => rfl
    | some pts2 => simp

/-- A spring pull never changes any object's stick list. -/
theorem applySpringPull_sticks (objs : List SBObject) (sp : Spring2) (i : ℕ) :
    ((applySpringPull objs sp).getD i defObj).sticks = (objs.getD i defObj).sticks := by
  unfold applySpringPull
  rw [getD_lmod]
  split_ifs with hc <;> rfl

/-- Folding all spring pulls never changes any object's stick list. -/
theorem springFold_sticks (sps : List (ℕ × Spring2)) (objs : List SBObject) (i : ℕ) :
    ((sps.foldl (fun os pr => applySpringPull os pr.2) objs).getD i defObj).sticks
      = (objs.getD i defObj).sticks := by
  induction sps generalizing objs with
  | nil => rfl
  | cons pr rest ih =>
    simp only [List.foldl_cons]
    rw [ih, applySpringPull_sticks]

/-- Across one `update` call, every object's stick list is a sublist of
    what it was: sticks are only ever removed. -/
theorem updateSystem_sticks (jsin : ℚ → ℚ) (w h : ℚ) (sys : SysState) (i : ℕ) :
    ((updateSystem jsin w h sys).objects.getD i defObj).sticks.Sublist
      ((sys.objects.getD i defObj).sticks) := by
  show ((sys.mouseSprings.foldl (fun os pr => applySpringPull os pr.2)
    (sys.objects.map (updateObj w h))).getD i defObj).sticks.Sublist _
  rw [springFold_sticks]
  rw [getD_map (updateObj w h) sys.objects i defObj defObj]
  split_ifs with hi
  · exact (updateObj_preserve w h _).2.2.2
  · rw [List.getD_eq_default _ _ (by omega)]

/-- `crumple` never changes any object's stick list. -/
theorem crumpleObjs_sticks (cx cy radius intensity : ℚ) (rnd : ℕ → ℚ)
    (objs : List SBObject) : ∀ (k i : ℕ),
    (((crumpleObjs cx cy radius intensity rnd k objs).1.getD i defObj).sticks)
      = ((objs.getD i defObj).sticks) := by
  induction objs with
  | nil => intro k i; rfl
  | cons o rest ih =>
    intro k i
    unfold crumpleObjs
    split_ifs with hd
    · cases i with
      | zero => rfl
      | succ j =>
        show ((crumpleObjs cx cy radius intensity rnd k rest).1.getD j defObj).sticks = _
        rw [ih k j]
        rfl
    · cases i with
      | zero => rfl
      | succ j =>
        show ((crumpleObjs cx cy radius intensity rnd
          (crumplePts cx cy radius intensity rnd k o.points).2 rest).1.getD j defObj).sticks = _
        rw [ih _ j]
        rfl

/-- `fold` never changes any object's stick list. -/
theorem foldSys_sticks (cx cy radius vx vy : ℚ) (sys : SysState) (i : ℕ) :
    ((foldSys cx cy radius vx vy sys).objects.getD i defObj).sticks
      = ((sys.objects.getD i defObj).sticks) := by
  show ((sys.objects.map _).getD i defObj).sticks = _
  rw [getD_map _ _ i defObj defObj]
  split_ifs with hi hd
  · rfl
  · rfl
  · rw [List.getD_eq_default _ _ (by omega)]

/-- `handleInteraction` never touches the soft-body objects. -/
theorem handleInteraction_objects (handId : ℕ) (x y : ℚ) (pinch : Bool) (st : SysState) :
    (handleInteraction handId x y pinch st).objects = st.objects := by
  unfold handleInteraction
  split_ifs with hp <;> rfl

/-- `handleInteraction3D` never touches the soft-body objects. -/
theorem handleInteraction3D_objects (jsin jcos : ℚ → ℚ) (handId : ℕ) (x y z : ℚ)
    (g : Bool) (rot : ℚ) (st : SysState) :
    (handleInteraction3D jsin jcos handId x y z g rot st).objects = st.objects := by
  simp only [handleInteraction3D]
  repeat' split
  all_goals rfl

/-- C4: stick breaking.  If, at the moment a relaxation pass visits the
    stick `s` (i.e. after the later-indexed sticks `post` have been
    processed), its current endpoint distance exceeds
    `restLength × breakingThreshold`, then the pass removes `s` and
    applies no positional correction for it: the whole pass equals
    processing `post`, then `pre` on the resulting points, with `s` gone
    from the surviving list.  Moreover sticks are only ever removed: the
    surviving sticks of a pass are a sublist of its input, the per-object
    and per-`update` stick lists are sublists of what they were, and
    none of `crumple`, `fold`, `handleInteraction` or
    `handleInteraction3D` ever adds (or removes) a stick — so a removed
    stick never reappears during the object's lifetime. -/
theorem c4_stick_breaking (pts : List Point2) (pre post : List Stick) (s : Stick)
    (w h : ℚ) (jsin jcos : ℚ → ℚ) (o : SBObject) (sys : SysState) (i : ℕ)
    (cx cy radius intensity vx vy : ℚ) (rnd : ℕ → ℚ)
    (handId : ℕ) (hx hy hz rot : ℚ) (g p : Bool)
    (hbrk : s.length * breakingThreshold < stickDist (relaxPass pts post).1 s) :
    relaxPass pts (pre ++ s :: post)
      = ((relaxPass (relaxPass pts post).1 pre).1,
         (relaxPass (relaxPass pts post).1 pre).2 ++ (relaxPass pts post).2) ∧
    ((relaxPass pts (pre ++ s :: post)).2.Sublist (pre ++ s :: post)) ∧
    ((updateObj w h o).sticks.Sublist o.sticks) ∧
    (((updateSystem jsin w h sys).objects.getD i defObj).sticks.Sublist
      ((sys.objects.getD i defObj).sticks)) ∧
    (((crumpleSys cx cy radius intensity rnd sys).objects.getD i defObj).sticks
      = (sys.objects.getD i defObj).sticks) ∧
    (((foldSys cx cy radius vx vy sys).objects.getD i defObj).sticks
      = (sys.objects.getD i defObj).sticks) ∧
    ((handleInteraction handId hx hy p sys).objects = sys.objects) ∧
    ((handleInteraction3D jsin jcos handId hx hy hz g rot sys).objects = sys.objects) := by
  have hnone : stickVisit (relaxPass pts post).1 s = none := by
    simp only [stickVisit]
    rw [if_pos hbrk]
  have hstep : relaxPass pts (s :: post) = relaxPass pts post := by
    have hcons : relaxPass pts (s :: post)
        = (match stickVisit (relaxPass pts post).1 s with
           | none => relaxPass pts post
           | some pts2 => (pts2, s :: (relaxPass pts post).2)) := rfl
    rw [hcons, hnone]
  refine ⟨?_, (relaxPass_preserve (pre ++ s :: post) pts).2.2.2, (updateObj_preserve w h o).2.2.2,
    updateSystem_sticks jsin w h sys i, crumpleObjs_sticks cx cy radius intensity rnd sys.objects 0 i,
    foldSys_sticks cx cy radius vx vy sys i, handleInteraction_objects handId hx hy p sys,
    handleInteraction3D_objects jsin jcos handId hx hy hz g rot sys⟩
  rw [relaxPass_append pts pre (s :: post), hstep]

/-- Witness for the stick-breaking theorem at a concrete overstretched
    stick (distance 600 > 500 = 50 × 10). -/
theorem c4_stick_breaking_witness :
    (relaxPass c4pts ([] ++ c4s :: [])
      = ((relaxPass (relaxPass c4pts []).1 []).1,
         (relaxPass (relaxPass c4pts []).1 []).2 ++ (relaxPass c4pts []).2)) ∧
    ((relaxPass c4pts ([] ++ c4s :: [])).2.Sublist ([] ++ c4s :: [])) ∧
    ((updateObj 640 480 defObj).sticks.Sublist defObj.sticks) ∧
    (((updateSystem (fun _ => 0) 640 480 c4sys).objects.getD 0 defObj).sticks.Sublist
      ((c4sys.objects.getD 0 defObj).sticks)) ∧
    (((crumpleSys 0 0 20 1 (fun _ => 0) c4sys).objects.getD 0 defObj).sticks
      = (c4sys.objects.getD 0 defObj).sticks) ∧
    (((foldSys 0 0 20 0 0 c4sys).objects.getD 0 defObj).sticks
      = (c4sys.objects.getD 0 defObj).sticks) ∧
    ((handleInteraction 1 0 0 true c4sys).objects = c4sys.objects) ∧
    ((handleInteraction3D (fun _ => 0) (fun _ => 0) 1 0 0 0 true 0 c4sys).objects
      = c4sys.objects) :=
  c4_stick_breaking c4pts [] [] c4s 640 480 (fun _ => 0) (fun _ => 0) defObj c4sys 0
    0 0 20 1 0 0 (fun _ => 0) 1 0 0 0 0 true true
    (by norm_num [relaxPass, stickDist, c4pts, c4s, defPt, breakingThreshold, msqrt360000])

/-- Unfolding equation for one step of the `checkSnapping` scan. -/
theorem checkSnapping_cons (A o : RigidBody) (l : List RigidBody) :
    checkSnapping A (o :: l)
      = (if o.id = A.id then ((checkSnapping A l).1, o :: (checkSnapping A l).2)
         else if |A.position.x - o.position.x| < 50 ∧ |A.position.z - o.position.z| < 50 then
           (if 0 < o.position.y - A.position.y ∧ o.position.y - A.position.y < 60 + 40 then
             ({ A with
                snapTarget := some o.id,
                position := { x := o.position.x, y := o.position.y - 60, z := o.position.z },
                rotation := o.rotation,
                velocity := ⟨0, 0, 0⟩,
                glow := 1,
                snapTimer := 20 },
              { o with glow := 0.5 } :: l)
           else ((checkSnapping A l).1, o :: (checkSnapping A l).2))
         else ((checkSnapping A l).1, o :: (checkSnapping A l).2)) := rfl

/-- C5: snap determinism.  If body `A` sits exactly below-aligned with
    body `B` (equal x and z, with `B.y − A.y` strictly between 0 and
    100) and every body earlier in iteration order is either `A` itself
    or fails the candidate test, then `checkSnapping A` snaps `A` to
    `B`: x and z copied, y set to `B.y − 60` (one stack unit), rotation
    copied, velocity zeroed, `snapTarget` set to `B`'s id, and the
    stabilization timer armed at 20 ticks. -/
theorem c5_snap_determinism (A B : RigidBody) (pre post : List RigidBody)
    (hx : A.position.x = B.position.x) (hz : A.position.z = B.position.z)
    (hy1 : 0 < B.position.y - A.position.y) (hy2 : B.position.y - A.position.y < 100)
    (hid : ¬(B.id = A.id))
    (hpre : ∀ o ∈ pre, o.id = A.id ∨
      ¬(|A.position.x - o.position.x| < 50 ∧ |A.position.z - o.position.z| < 50 ∧
        0 < o.position.y - A.position.y ∧ o.position.y - A.position.y < 100)) :
    (checkSnapping A (pre ++ B :: post)).1.position.x = B.position.x ∧
    (checkSnapping A (pre ++ B :: post)).1.position.z = B.position.z ∧
    (checkSnapping A (pre ++ B :: post)).1.position.y = B.position.y - 60 ∧
    (checkSnapping A (pre ++ B :: post)).1.rotation = B.rotation ∧
    (checkSnapping A (pre ++ B :: post)).1.velocity = ⟨0, 0, 0⟩ ∧
    (checkSnapping A (pre ++ B :: post)).1.snapTarget = some B.id ∧
    (checkSnapping A (pre ++ B :: post)).1.snapTimer = 20 := by
  induction pre with
  | nil =>
    rw [List.nil_append, checkSnapping_cons, if_neg hid]
    have h12 : |A.position.x - B.position.x| < 50 ∧ |A.position.z - B.position.z| < 50 := by
      rw [hx, hz]
      simp
    rw [if_pos h12, if_pos ⟨hy1, by linarith [hy2]⟩]
    exact ⟨rfl, rfl, rfl, rfl, rfl, rfl, rfl⟩
  | cons o pre' ih =>
    have hmem := hpre o (List.mem_cons_self o pre')
    have hih := ih (fun q hq => hpre q (List.mem_cons_of_mem o hq))
    rw [List.cons_append, checkSnapping_cons]
    by_cases hoid : o.id = A.id
    · rw [if_pos hoid]
      exact hih
    · rw [if_neg hoid]
      have hnm := hmem.resolve_left hoid
      by_cases h12 : |A.position.x - o.position.x| < 50 ∧ |A.position.z - o.position.z| < 50
      · rw [if_pos h12]
        have h34 : ¬(0 < o.position.y - A.position.y ∧
            o.position.y - A.position.y < 60 + 40) := by
          intro hc
          exact hnm ⟨h12.1, h12.2, hc.1, by linarith [hc.2]⟩
        rw [if_neg h34]
        exact hih
      · rw [if_neg h12]
        exact hih

/-- Witness for snap determinism at a concrete aligned pair. -/
theorem c5_snap_determinism_witness :
    (checkSnapping c5A ([] ++ c5B :: [])).1.position.x = c5B.position.x ∧
    (checkSnapping c5A ([] ++ c5B :: [])).1.position.z = c5B.position.z ∧
    (checkSnapping c5A ([] ++ c5B :: [])).1.position.y = c5B.position.y - 60 ∧
    (checkSnapping c5A ([] ++ c5B :: [])).1.rotation = c5B.rotation ∧
    (checkSnapping c5A ([] ++ c5B :: [])).1.velocity = ⟨0, 0, 0⟩ ∧
    (checkSnapping c5A ([] ++ c5B :: [])).1.snapTarget = some c5B.id ∧
    (checkSnapping c5A ([] ++ c5B :: [])).1.snapTimer = 20 :=
  c5_snap_determinism c5A c5B [] [] rfl rfl (by norm_num [c5A, c5B])
    (by norm_num [c5A, c5B]) (by decide) (by simp)

/-- The glow-decay and dragon-animation preprocessing of `updateBody`
    leaves every physics-relevant field unchanged. -/
theorem prep_fields (jsin : ℚ → ℚ) (t : ℚ) (b : RigidBody) :
    (glowDecay (dragonAnim jsin t b)).isHeld = b.isHeld ∧
    (glowDecay (dragonAnim jsin t b)).snapTimer = b.snapTimer ∧
    (glowDecay (dragonAnim jsin t b)).snapTarget = b.snapTarget ∧
    (glowDecay (dragonAnim jsin t b)).position = b.position ∧
    (glowDecay (dragonAnim jsin t b)).velocity = b.velocity ∧
    (glowDecay (dragonAnim jsin t b)).rotation = b.rotation := by
  unfold glowDecay dragonAnim
  repeat' split
  all_goals exact ⟨rfl, rfl, rfl, rfl, rfl, rfl⟩

/-- C6: snap following and dangling-target handling.  For a non-held
    body with `snapTimer = 0` and `snapTarget = some tid`: if the body
    list contains a body with that id, `updateBody` copies the target's
    x and z, sets y to the target's y minus the fixed stack height 60,
    copies the target's rotation, and applies no gravity or velocity
    integration (velocity unchanged, `snapTarget` kept); if no body with
    that id exists, `updateBody` clears `snapTarget` and takes the
    free-fall path (gravity, velocity integration, floor collision and
    drag) in the same tick. -/
theorem c6_snap_follow_and_dangling (jsin : ℚ → ℚ) (time h : ℚ) (b target : RigidBody)
    (tid : String) (lA lB : List RigidBody)
    (hheld : b.isHeld = false) (htimer : b.snapTimer = 0) (hsnap : b.snapTarget = some tid)
    (hA : lA.find? (fun o => o.id == tid) = some target)
    (hB : lB.find? (fun o => o.id == tid) = none) :
    (updateBody jsin lA time h b).position.x = target.position.x ∧
    (updateBody jsin lA time h b).position.z = target.position.z ∧
    (updateBody jsin lA time h b).position.y = target.position.y - 60 ∧
    (updateBody jsin lA time h b).rotation = target.rotation ∧
    (updateBody jsin lA time h b).velocity = b.velocity ∧
    (updateBody jsin lA time h b).snapTarget = some tid ∧
    (updateBody jsin lB time h b
      = freeFall h { glowDecay (dragonAnim jsin time b) with snapTarget := none }) ∧
    (updateBody jsin lB time h b).snapTarget = none := by
  have hp := prep_fields jsin time b
  have hnotHeld : ¬((glowDecay (dragonAnim jsin time b)).isHeld = true) := by
    rw [hp.1, hheld]
    simp
  have hnotTimer : ¬((glowDecay (dragonAnim jsin time b)).snapTimer > 0) := by
    rw [hp.2.1, htimer]
    omega
  have hsnap' : (glowDecay (dragonAnim jsin time b)).snapTarget = some tid := by
    rw [hp.2.2.1, hsnap]
  have hbodyA : updateBody jsin lA time h b
      = { glowDecay (dragonAnim jsin time b) with
          position := { x := target.position.x, y := target.position.y - 60,
                        z := target.position.z },
          rotation := target.rotation } := by
    unfold updateBody
    rw [if_neg hnotHeld, if_neg hnotTimer, hsnap']
    dsimp only
    rw [hA]
    dsimp only
    rw [hsnap']
  have hbodyB : updateBody jsin lB time h b
      = freeFall h { glowDecay (dragonAnim jsin time b) with snapTarget := none } := by
    unfold updateBody
    rw [if_neg hnotHeld, if_neg hnotTimer, hsnap']
    dsimp only
    rw [hB]
  refine ⟨by rw [hbodyA], by rw [hbodyA], by rw [hbodyA], by rw [hbodyA], ?_, ?_, hbodyB, ?_⟩
  · rw [hbodyA]
    exact hp.2.2.2.2.1
  · rw [hbodyA]
    exact hsnap'
  · rw [hbodyB]
    rfl

/-- Witness for snap following (target present) and the dangling-target
    fallback (target absent). -/
theorem c6_snap_follow_and_dangling_witness :
    (updateBody (fun _ => 0) [c6t] 0 1000 c6b).position.x = c6t.position.x ∧
    (updateBody (fun _ => 0) [c6t] 0 1000 c6b).position.z = c6t.position.z ∧
    (updateBody (fun _ => 0) [c6t] 0 1000 c6b).position.y = c6t.position.y - 60 ∧
    (updateBody (fun _ => 0) [c6t] 0 1000 c6b).rotation = c6t.rotation ∧
    (updateBody (fun _ => 0) [c6t] 0 1000 c6b).velocity = c6b.velocity ∧
    (updateBody (fun _ => 0) [c6t] 0 1000 c6b).snapTarget = some "T" ∧
    (updateBody (fun _ => 0) [] 0 1000 c6b
      = freeFall 1000 { glowDecay (dragonAnim (fun _ => 0) 0 c6b) with snapTarget := none }) ∧
    (updateBody (fun _ => 0) [] 0 1000 c6b).snapTarget = none :=
  c6_snap_follow_and_dangling (fun _ => 0) 0 1000 c6b c6t "T" [c6t] []
    rfl rfl rfl (by simp [List.find?, c6t]) rfl

/-- C7 (amended): physics suspension.  A held body's position, velocity
    and rotation are unchanged by the per-body update; a non-held body
    with `snapTimer > 0` is changed only by the snapTimer decrement, the
    glow decay, and — for dragon bodies — the dragonConfig animation
    advance: its position, velocity and rotation are unchanged. -/
theorem c7_physics_suspension (jsin : ℚ → ℚ) (lookup : List RigidBody) (time h : ℚ)
    (b c : RigidBody) (hb : b.isHeld = true) (hc : c.isHeld = false) (hct : 0 < c.snapTimer) :
    (updateBody jsin lookup time h b).position = b.position ∧
    (updateBody jsin lookup time h b).velocity = b.velocity ∧
    (updateBody jsin lookup time h b).rotation = b.rotation ∧
    (updateBody jsin lookup time h c
      = { glowDecay (dragonAnim jsin time c) with snapTimer := c.snapTimer - 1 }) ∧
    (updateBody jsin lookup time h c).position = c.position ∧
    (updateBody jsin lookup time h c).velocity = c.velocity ∧
    (updateBody jsin lookup time h c).rotation = c.rotation := by
  have hpb := prep_fields jsin time b
  have hpc := prep_fields jsin time c
  have hbodyB : updateBody jsin lookup time h b = glowDecay (dragonAnim jsin time b) := by
    unfold updateBody
    rw [if_pos (by rw [hpb.1]; exact hb)]
  have hbodyC : updateBody jsin lookup time h c
      = { glowDecay (dragonAnim jsin time c) with
          snapTimer := (glowDecay (dragonAnim jsin time c)).snapTimer - 1 } := by
    unfold updateBody
    rw [if_neg (by rw [hpc.1, hc]; simp), if_pos (by rw [hpc.2.1]; exact hct)]
  refine ⟨?_, ?_, ?_, ?_, ?_, ?_, ?_⟩
  · rw [hbodyB]
    exact hpb.2.2.2.1
  · rw [hbodyB]
    exact hpb.2.2.2.2.1
  · rw [hbodyB]
    exact hpb.2.2.2.2.2
  · rw [hbodyC, hpc.2.1]
  · rw [hbodyC]
    exact hpc.2.2.2.1
  · rw [hbodyC]
    exact hpc.2.2.2.2.1
  · rw [hbodyC]
    exact hpc.2.2.2.2.2

/-- C7 counterexample: for a non-held dragon body with `snapTimer = 1`,
    the per-body update changes more than the snapTimer and the glow:
    the `dragonConfig` animation fields change (`neckPhase` is set to
    the current time 1/20 and `jawAngle` is recomputed), so the claim
    that no field other than `snapTimer` and `glow` changes is false. -/
theorem c7_dragon_anim_during_lock :
    c7dragon.isHeld = false ∧ 0 < c7dragon.snapTimer ∧
    (updateBody (fun _ => 0) [] (1/20) 1000 c7dragon).snapTimer = 0 ∧
    c7dragon.dragonConfig = some { jawAngle := 0, neckPhase := 0, wingPhase := 0 } ∧
    (updateBody (fun _ => 0) [] (1/20) 1000 c7dragon).dragonConfig
      = some { jawAngle := 1/5, neckPhase := 1/20, wingPhase := 0 } := by
  refine ⟨rfl, by norm_num [c7dragon], ?_, rfl, ?_⟩
  · norm_num [updateBody, dragonAnim, glowDecay, c7dragon]
  · norm_num [updateBody, dragonAnim, glowDecay, c7dragon]

/-- Witness for the amended physics-suspension theorem: a held body and
    a snap-locked dragon body. -/
theorem c7_physics_suspension_witness :
    (updateBody (fun _ => 0) [] 0 1000 c7held).position = c7held.position ∧
    (updateBody (fun _ => 0) [] 0 1000 c7held).velocity = c7held.velocity ∧
    (updateBody (fun _ => 0) [] 0 1000 c7held).rotation = c7held.rotation ∧
    (updateBody (fun _ => 0) [] 0 1000 c7dragon
      = { glowDecay (dragonAnim (fun _ => 0) 0 c7dragon) with
          snapTimer := c7dragon.snapTimer - 1 }) ∧
    (updateBody (fun _ => 0) [] 0 1000 c7dragon).position = c7dragon.position ∧
    (updateBody (fun _ => 0) [] 0 1000 c7dragon).velocity = c7dragon.velocity ∧
    (updateBody (fun _ => 0) [] 0 1000 c7dragon).rotation = c7dragon.rotation :=
  c7_physics_suspension (fun _ => 0) [] 0 1000 c7held c7dragon rfl rfl (by decide)

/-- The glow reset changes neither a body's position nor its scale. -/
theorem glowReset_geom (b : RigidBody) :
    (glowReset b).position = b.position ∧ (glowReset b).scale = b.scale := by
  unfold glowReset
  split_ifs <;> exact ⟨rfl, rfl⟩

/-- If no body qualifies, the grab scan finds no target. -/
theorem grabScan_none (x y : ℚ) (l : List RigidBody)
    (hfar : ∀ b ∈ l, ¬(bodyDist x y b < colliderRadius b)) :
    ∀ (i : ℕ) (c : Option ℚ), grabScanGo x y i c none l = (c, none) := by
  induction l with
  | nil => intro i c; rfl
  | cons b rest ih =>
    intro i c
    have hb := hfar b (List.mem_cons_self b rest)
    have hrest := ih (fun q hq => hfar q (List.mem_cons_of_mem b hq))
    simp only [grabScanGo]
    rw [decide_eq_false hb, Bool.false_and, if_neg (by simp)]
    exact hrest (i + 1) c

/-- If no point of the list is nearer than `minD`, the point scan keeps
    its running minimum and candidate. -/
theorem pinchScanPts_none (x y : ℚ) (oi : ℕ) (pts : List Point2) :
    ∀ (pi : ℕ) (minD : ℚ) (cand : Option (ℕ × ℕ)),
    (∀ p ∈ pts, ¬(msqrt ((p.x - x) * (p.x - x) + (p.y - y) * (p.y - y)) < minD)) →
    pinchScanPts x y oi pi minD cand pts = (minD, cand) := by
  induction pts with
  | nil => intro pi minD cand _; rfl
  | cons p rest ih =>
    intro pi minD cand hfar
    have hp := hfar p (List.mem_cons_self p rest)
    simp only [pinchScanPts]
    rw [if_neg hp]
    exact ih (pi + 1) minD cand (fun q hq => hfar q (List.mem_cons_of_mem p hq))

/-- If no eligible point of any non-exempt object is within the capture
    distance, the object scan finds no candidate. -/
theorem pinchScanObjs_none (x y : ℚ) (objs : List SBObject) :
    ∀ (oi : ℕ) (minD : ℚ) (cand : Option (ℕ × ℕ)),
    (∀ o ∈ objs, o.type ≠ "devil_horn" →
      ∀ p ∈ o.points, ¬(msqrt ((p.x - x) * (p.x - x) + (p.y - y) * (p.y - y)) < minD)) →
    pinchScanObjs x y oi minD cand objs = (minD, cand) := by
  induction objs with
  | nil => intro oi minD cand _; rfl
  | cons o rest ih =>
    intro oi minD cand hfar
    have hrest := ih (oi + 1) minD cand (fun q hq => hfar q (List.mem_cons_of_mem o hq))
    simp only [pinchScanObjs]
    split_ifs with hd
    · exact hrest
    · rw [pinchScanPts_none x y oi o.points 0 minD cand
        (hfar o (List.mem_cons_self o rest) hd)]
      exact hrest

/-- C8 (amended): no-candidate near-atomicity.  When an actor with no
    hold record reports grabbing and no body lies within its collider
    radius, `handleInteraction3D` changes nothing except the
    unconditional glow reset it performs at entry (glow of every
    non-held body with glow < 0.5 is zeroed); in particular no hold
    record is created and no other body field changes.  When an actor
    with no spring reports pinching and no eligible point lies within
    the capture radius 80, `handleInteraction` changes nothing at all. -/
theorem c8_no_candidate_near_atomicity (jsin jcos : ℚ → ℚ) (handId : ℕ)
    (x y z rot : ℚ) (st : SysState)
    (hnohold : alookup st.heldObjects handId = none)
    (hfarB : ∀ b ∈ st.rigidBodies, ¬(bodyDist x y b < colliderRadius b))
    (hnospring : alookup st.mouseSprings handId = none)
    (hfarP : ∀ o ∈ st.objects, o.type ≠ "devil_horn" →
      ∀ p ∈ o.points, ¬(msqrt ((p.x - x) * (p.x - x) + (p.y - y) * (p.y - y)) < 80)) :
    (handleInteraction3D jsin jcos handId x y z true rot st
      = { st with rigidBodies := st.rigidBodies.map glowReset }) ∧
    (alookup (handleInteraction3D jsin jcos handId x y z true rot st).heldObjects handId
      = none) ∧
    (handleInteraction handId x y true st = st) := by
  have hfar' : ∀ b ∈ st.rigidBodies.map glowReset, ¬(bodyDist x y b < colliderRadius b) := by
    intro b hb
    rcases List.mem_map.mp hb with ⟨a, ha, rfl⟩
    have hg := glowReset_geom a
    unfold bodyDist colliderRadius
    rw [hg.1, hg.2]
    exact hfarB a ha
  have h3d : handleInteraction3D jsin jcos handId x y z true rot st
      = { st with rigidBodies := st.rigidBodies.map glowReset } := by
    unfold handleInteraction3D
    rw [if_pos rfl, hnohold]
    dsimp only
    rw [grabScan_none x y _ hfar' 0 none]
  have h2d : handleInteraction handId x y true st = st := by
    unfold handleInteraction
    rw [if_pos rfl, hnospring]
    dsimp only
    rw [pinchScanObjs_none x y st.objects 0 80 none hfarP]
    dsimp only
    rw [hnospring]
  refine ⟨h3d, ?_, h2d⟩
  rw [h3d]
  exact hnohold

/-- C8 counterexample: a grab attempt that finds no candidate still
    mutates body state.  The far body (distance 100, collider radius
    54.6) is outside the collider radius, no hold record is created, yet
    its glow is reset from 0.3 to 0 by the unconditional glow reset at
    the top of `handleInteraction3D`. -/
theorem c8_failed_grab_still_resets_glow :
    c8body.glow = 3/10 ∧
    ¬(bodyDist 0 0 c8body < colliderRadius c8body) ∧
    (alookup (handleInteraction3D (fun _ => 0) (fun _ => 0) 1 0 0 0 true 0 c8st).heldObjects 1
      = none) ∧
    ((handleInteraction3D (fun _ => 0) (fun _ => 0) 1 0 0 0 true 0
        c8st).rigidBodies.getD 0 defBody).glow = 0 := by
  have hfar : ¬(bodyDist 0 0 c8body < colliderRadius c8body) := by
    norm_num [bodyDist, colliderRadius, c8body, msqrt10000]
  refine ⟨by norm_num [c8body], hfar, ?_, ?_⟩
  · norm_num [handleInteraction3D, c8st, alookup, glowReset, grabScanGo, c8body,
      bodyDist, colliderRadius, msqrt10000, List.find?]
  · norm_num [handleInteraction3D, c8st, alookup, glowReset, grabScanGo, c8body,
      bodyDist, colliderRadius, msqrt10000, List.find?, defBody]

/-- Witness for the amended no-candidate theorem at a concrete state. -/
theorem c8_no_candidate_near_atomicity_witness :
    (handleInteraction3D (fun _ => 0) (fun _ => 0) 1 0 0 0 true 0 c8wst
      = { c8wst with rigidBodies := c8wst.rigidBodies.map glowReset }) ∧
    (alookup (handleInteraction3D (fun _ => 0) (fun _ => 0) 1 0 0 0 true 0
        c8wst).heldObjects 1 = none) ∧
    (handleInteraction 1 0 0 true c8wst = c8wst) :=
  c8_no_candidate_near_atomicity (fun _ => 0) (fun _ => 0) 1 0 0 0 0 c8wst rfl
    (by intro b hb
        simp only [c8wst, List.mem_singleton] at hb
        subst hb
        norm_num [bodyDist, colliderRadius, c8wbody, msqrt10000])
    rfl
    (by intro o ho hd p hp
        simp only [c8wst, List.mem_singleton] at ho
        subst ho
        simp only [c8wobj, List.mem_singleton] at hp
        subst hp
        norm_num [msqrt40000])

end SBS

